import Mathlib

/-!
Verification of the blackhole TCP tunnel (src/index.js) against its
natural-language specification.  The relevant parts of the program are
shallowly embedded as executable Lean definitions: byte chunks received
on sockets are lists of characters (the code converts buffers to JS
strings with `data.toString()`), event handlers become pure functions
from inputs to an outcome record, and the event-driven lifecycles
(client reconnection, server teardown timer) become explicit step
functions over small state types.
-/

namespace Blackhole

/-! ## JavaScript string primitives used by the auth handler -/

/-- Whitespace as recognised by JavaScript `String.prototype.trim`:
the ECMAScript WhiteSpace code points — TAB, VT, FF, SP, NBSP, ZWNBSP
and every Unicode Space_Separator code point (U+1680, U+2000..U+200A,
U+202F, U+205F, U+3000) — and the LineTerminator code points LF, CR,
LS, PS. -/
def jsIsWhitespace (c : Char) : Bool :=
  c = ' ' || c = '\t' || c = '\n' || c = '\x0b' || c = '\x0c' || c = '\r' ||
  c.val = 0x00a0 || c.val = 0x1680 ||
  (0x2000 ≤ c.val && c.val ≤ 0x200a) ||
  c.val = 0x2028 || c.val = 0x2029 || c.val = 0x202f || c.val = 0x205f ||
  c.val = 0x3000 || c.val = 0xfeff

/-- JavaScript `s.trim()`: strip leading and trailing whitespace. -/
def jsTrim (s : List Char) : List Char :=
  ((s.dropWhile jsIsWhitespace).reverse.dropWhile jsIsWhitespace).reverse

/-- JavaScript `s.indexOf` of the newline character, with `none` in
place of `-1`. -/
def newlineIdx : List Char → Option Nat
  | [] => none
  | c :: cs => if c = '\n' then some 0 else (newlineIdx cs).map (· + 1)

/-! ## Server authentication handler

`src/index.js` lines 262-290: when a password is configured the server
installs `controlSocket.once("data", ...)`.  The handler appends the
chunk to `authBuffer` (initially empty, so the buffer is exactly the
first chunk), looks for the first newline, rejects with
`"Authentication failed\n"` if there is none or if the trimmed line
differs from the password, and otherwise creates the multiplexer,
writes any leftover bytes after the newline into it, and pipes the
socket through it. -/

/-- What the connection handler did with the first data chunk. -/
structure ServerConnOutcome where
  /-- bytes written back on the control socket (via `socket.end(msg)`) -/
  wroteBack : List Char
  /-- whether the control socket was ended -/
  socketEnded : Bool
  /-- whether a multiplexer was constructed -/
  plexCreated : Bool
  /-- bytes written into the multiplexer before the socket is piped in -/
  plexFirstBytes : List Char
  deriving DecidableEq, Repr

def authFailedMsg : List Char := "Authentication failed\n".data

/-- The body of `controlSocket.once("data", ...)` (index.js 265-290),
as a function of the configured password and the first chunk. -/
def handleFirstData (serverPassword chunk : List Char) : ServerConnOutcome :=
  match newlineIdx chunk with
  | none =>
      { wroteBack := authFailedMsg, socketEnded := true
        plexCreated := false, plexFirstBytes := [] }
  | some i =>
      let provided := jsTrim (chunk.take i)
      if provided ≠ serverPassword then
        { wroteBack := authFailedMsg, socketEnded := true
          plexCreated := false, plexFirstBytes := [] }
      else
        let remaining := chunk.drop (i + 1)
        { wroteBack := [], socketEnded := false, plexCreated := true
          plexFirstBytes := if remaining.length > 0 then remaining else [] }

/-- The auth decision is taken from the first data event alone
(`once`): later chunks are never examined.  `none` when no data event
has fired yet. -/
def serverAuthOutcome (serverPassword : List Char) :
    List (List Char) → Option ServerConnOutcome
  | [] => none
  | c :: _ => some (handleFirstData serverPassword c)

/-- Bytes the multiplexer ultimately receives: the leftover suffix of
the first chunk is written first (index.js 284-286), then the socket is
piped in (line 288), delivering all later bytes. -/
def plexInputBytes (o : ServerConnOutcome) (laterBytes : List Char) : List Char :=
  o.plexFirstBytes ++ laterBytes

/-! ## Password normalisation (JS truthiness)

index.js line 27 / 249 (`config.password || null`, `args.password || null`)
and the branch at line 262 (`if (serverPassword)`).  An empty string is
falsy in JavaScript, so it normalises to `null` and the auth phase is
skipped. -/

def normalizePassword : Option (List Char) → Option (List Char)
  | none => none
  | some s => if s = [] then none else some s

/-- What the control-connection handler does before any data arrives:
with a truthy password it waits for the auth line, otherwise it builds
the multiplexer immediately (index.js 262, 291-296). -/
inductive ServerConnBehavior where
  | awaitAuthLine (pw : List Char)
  | immediatePlex
  deriving DecidableEq, Repr

def serverConnBehavior (rawPassword : Option (List Char)) : ServerConnBehavior :=
  match normalizePassword rawPassword with
  | some pw => .awaitAuthLine pw
  | none => .immediatePlex

/-- Bytes the client writes on connect (index.js 366-368): the password
plus a newline when one is configured (truthy), nothing otherwise. -/
def clientAuthWrite (rawPassword : Option (List Char)) : List Char :=
  match normalizePassword rawPassword with
  | some pw => pw ++ ['\n']
  | none => []

/-! ## Helper lemmas about the string primitives -/

theorem newlineIdx_eq_none_iff (s : List Char) :
    newlineIdx s = none ↔ '\n' ∉ s := by
  induction s with
  | nil => simp [newlineIdx]
  | cons c cs ih =>
      by_cases hc : c = '\n'
      · subst hc; simp [newlineIdx]
      · simp only [newlineIdx, if_neg hc, List.mem_cons]
        cases h : newlineIdx cs with
        | none => simp [h] at ih ⊢; tauto
        | some i => simp [h] at ih ⊢; tauto

theorem newlineIdx_append_of_not_mem (l r : List Char) (h : '\n' ∉ l) :
    newlineIdx (l ++ r) = (newlineIdx r).map (· + l.length) := by
  induction l with
  | nil => simp [Option.map_id]
  | cons c cs ih =>
      simp only [List.mem_cons, not_or] at h
      have hc : ¬ c = '\n' := fun hh => h.1 hh.symm
      simp only [List.cons_append, newlineIdx, if_neg hc]
      rw [show cs.append r = cs ++ r from rfl, ih h.2]
      cases newlineIdx r
      · rfl
      · simp only [Option.map_some', List.length_cons, Option.some_inj]
        omega

theorem newlineIdx_line (line rest : List Char) (h : '\n' ∉ line) :
    newlineIdx (line ++ '\n' :: rest) = some line.length := by
  rw [newlineIdx_append_of_not_mem line _ h]
  simp [newlineIdx]

theorem take_length_append (l r : List Char) : (l ++ r).take l.length = l := by
  simp

theorem drop_length_succ_append (line rest : List Char) :
    (line ++ '\n' :: rest).drop (line.length + 1) = rest := by
  have h : line ++ '\n' :: rest = (line ++ ['\n']) ++ rest := by simp
  have hl : line.length + 1 = (line ++ ['\n']).length := by simp
  rw [h, hl, List.drop_left]

/-! ## Client reconnection (index.js 350-416)

`maxRetries` is the constant 5 (line 351); `retries` starts at
`maxRetries` (line 352) and is only ever decremented.  On each call,
`attemptConnection` exits the process with code 1 when `retries <= 0`
(355-358), otherwise decrements, logs attempt number
`maxRetries - retries`, and dials.  A failed dial fires the socket
error handler, which schedules `attemptConnection` again after a fixed
10000 ms (408-412).  A successful dial installs a close handler that
schedules `attemptConnection` after 10000 ms without touching
`retries` (402-405). -/

def maxRetries : Nat := 5

inductive ClientEvent where
  | dialAttempt (attemptNumber : Nat)
  | waitMs (ms : Nat)
  | exitProcess (code : Nat)
  deriving DecidableEq, Repr

/-- `attemptConnection` under an unreachable control server: every dial
fails, so each call with remaining retries emits one dial attempt and a
fixed 10000 ms wait, and the call with no remaining retries exits the
process with code 1. -/
def attemptConnectionUnreachable : Nat → List ClientEvent
  | 0 => [.exitProcess 1]
  | r + 1 =>
      .dialAttempt (maxRetries - r) :: .waitMs 10000 ::
        attemptConnectionUnreachable r

/-- The full event trace of one client run against an unreachable
server, starting from `retries = maxRetries`. -/
def clientRunUnreachable : List ClientEvent :=
  attemptConnectionUnreachable maxRetries

/-- Client lifecycle phases: about to run `attemptConnection` with the
given remaining `retries`, connected with the given remaining
`retries`, or exited. -/
inductive ClientPhase where
  | dialing (retries : Nat)
  | connected (retries : Nat)
  | exited (code : Nat)
  deriving DecidableEq, Repr

inductive ClientLabel where
  | gaveUp
  | dialFail
  | dialOk
  | connClosed
  deriving DecidableEq, Repr

/-- Labelled transitions of the client reconnection loop, one per code
path of `attemptConnection`: give up and exit 1 when no retries remain
(index.js 355-358); a failed dial consumes one retry and redials
(359, 408-412); a successful dial consumes one retry (359) and
connects; a close of an established connection redials with `retries`
unchanged (402-405) — no transition ever increases `retries`. -/
inductive ClientStep : ClientPhase → ClientLabel → ClientPhase → Prop where
  | giveUp : ClientStep (.dialing 0) .gaveUp (.exited 1)
  | dialFail (r : Nat) : ClientStep (.dialing (r + 1)) .dialFail (.dialing r)
  | dialOk (r : Nat) : ClientStep (.dialing (r + 1)) .dialOk (.connected r)
  | connClosed (r : Nat) : ClientStep (.connected r) .connClosed (.dialing r)

def phaseRetries : ClientPhase → Nat
  | .dialing r => r
  | .connected r => r
  | .exited _ => 0

/-! ## Server exposed-listener teardown (setupTunnel, index.js 184-227) -/

inductive TunnelEvent where
  | controlClose
  | replacementActive
  | graceTimerFires
  deriving DecidableEq, Repr

/-- State of one `setupTunnel` instance and the process hosting it:
whether the server process is still running, whether this exposed
listener still accepts connections, and the delay of a pending
teardown timeout, if armed. -/
structure TunnelState where
  processAlive : Bool
  listenerOpen : Bool
  timerArmedMs : Option Nat
  deriving DecidableEq, Repr

/-- One event against one `setupTunnel` instance.  The close handler of
the control socket arms `setTimeout(..., serverTimeout)` (index.js
215-221); when the armed timer fires, its callback runs
`exposedServer.close()` unconditionally.  A replacement control
connection becoming active runs `setupTunnel` afresh, whose
`net.createServer(...).listen(exposedPort)` (185-212) binds the same
exposed port: while this listener still holds the port, that bind
fails with EADDRINUSE, and since `setupTunnel` installs no error
handler on the exposed server, the unhandled error event crashes the
whole process — the listener is gone and the pending timeout never
fires.  If this listener has already been closed, the replacement
binds successfully and this state is untouched.  Once the process is
dead, no further event has any effect. -/
def tunnelStep (serverTimeout : Nat) (s : TunnelState) : TunnelEvent → TunnelState
  | .controlClose =>
      if s.processAlive then { s with timerArmedMs := some serverTimeout } else s
  | .replacementActive =>
      if s.processAlive && s.listenerOpen then
        { processAlive := false, listenerOpen := false, timerArmedMs := none }
      else s
  | .graceTimerFires =>
      if s.processAlive then
        match s.timerArmedMs with
        | some _ => { s with listenerOpen := false, timerArmedMs := none }
        | none => s
      else s

def tunnelRun (serverTimeout : Nat) (s : TunnelState)
    (evs : List TunnelEvent) : TunnelState :=
  evs.foldl (tunnelStep serverTimeout) s

/-- Right after `exposedServer.listen(exposedPort, ...)`: process
running, listener accepting, no teardown timer armed. -/
def tunnelInit : TunnelState :=
  { processAlive := true, listenerOpen := true, timerArmedMs := none }

/-! ## Client-side local bridges (plex.on stream handler, index.js 374-394) -/

/-- One logical stream bridged to one local socket by the client. -/
structure LogicalBridge where
  id : Nat
  streamOpen : Bool
  localOpen : Bool
  deriving DecidableEq, Repr

structure ClientTunnelState where
  controlOpen : Bool
  bridges : List LogicalBridge
  deriving DecidableEq, Repr

/-- The error handler of the local socket of the bridge with stream id
`i` (index.js 384-387): it logs and calls `stream.end()` on that one
tunnel stream; it touches neither the control socket nor any other
bridge. -/
def onLocalSocketError (st : ClientTunnelState) (i : Nat) : ClientTunnelState :=
  { st with
    bridges := st.bridges.map fun b =>
      if b.id = i then { b with streamOpen := false } else b }

/-! ## One exposed listener per control connection (index.js 184-227, 258-297) -/

structure ListenerRec where
  ownerConn : Nat
  port : Nat
  deriving DecidableEq, Repr

structure ServerState where
  connCount : Nat
  listeners : List ListenerRec
  deriving DecidableEq, Repr

/-- Each inbound control connection that becomes active runs
`setupTunnel` exactly once (index.js 289 after auth, 295 without a
password), and `setupTunnel` calls `net.createServer(...)` —
constructing a brand-new exposed listener — and binds it to the
configured exposed port (185-212).  No code path reuses a listener
created for an earlier connection. -/
def onControlConnActive (exposedPort : Nat) (st : ServerState) : ServerState :=
  { connCount := st.connCount + 1
    listeners := st.listeners ++ [{ ownerConn := st.connCount, port := exposedPort }] }

def serverInit : ServerState := { connCount := 0, listeners := [] }

def runActivations (exposedPort : Nat) : Nat → ServerState
  | 0 => serverInit
  | n + 1 => onControlConnActive exposedPort (runActivations exposedPort n)

theorem runActivations_connCount (p n : Nat) :
    (runActivations p n).connCount = n := by
  induction n with
  | zero => rfl
  | succ n ih => simp [runActivations, onControlConnActive, ih]

theorem runActivations_listeners (p n : Nat) :
    (runActivations p n).listeners =
      (List.range n).map (fun i => { ownerConn := i, port := p }) := by
  induction n with
  | zero => rfl
  | succ n ih =>
      simp [runActivations, onControlConnActive, ih, List.range_succ,
        runActivations_connCount]

/-! ## Claim theorems -/

/-- C1, counterexample: the configured secret `" S"` is a truthy
nonempty string, so the auth phase applies, yet a client sending the
exact secret followed by a newline is rejected — the server compares
the TRIMMED line (`"S"`) to the untrimmed secret (`" S"`), writes
`"Authentication failed\n"`, ends the socket and constructs no
multiplexer. -/
theorem c1_exact_secret_rejected :
    serverConnBehavior (some " S".data) = .awaitAuthLine " S".data
    ∧ handleFirstData " S".data " S\n".data =
        { wroteBack := authFailedMsg, socketEnded := true
          plexCreated := false, plexFirstBytes := [] } := by
  constructor
  · rfl
  · rfl

/-- C1, amended: provided the configured secret is trim-invariant and
newline-free, a client whose first line is the exact secret is admitted
(a multiplexer is constructed), and a client whose first line trims to
anything other than the secret is rejected: the server writes
`"Authentication failed\n"`, ends the connection, and constructs no
multiplexer. -/
theorem c1_auth_decision (pw line rest : List Char)
    (hpwNl : '\n' ∉ pw) (hpwTrim : jsTrim pw = pw) (hlineNl : '\n' ∉ line) :
    (handleFirstData pw (pw ++ '\n' :: rest)).plexCreated = true
    ∧ (jsTrim line ≠ pw →
        handleFirstData pw (line ++ '\n' :: rest) =
          { wroteBack := authFailedMsg, socketEnded := true
            plexCreated := false, plexFirstBytes := [] }) := by
  constructor
  · unfold handleFirstData
    rw [newlineIdx_line pw rest hpwNl]
    simp [take_length_append, hpwTrim]
  · intro hne
    unfold handleFirstData
    rw [newlineIdx_line line rest hlineNl]
    simp [take_length_append, hne]

/-- C1 witness: with secret `"S"`, the line `"S"` is admitted and the
line `"WRONG"` is rejected. -/
theorem c1_auth_decision_witness :
    (handleFirstData "S".data ("S".data ++ '\n' :: [])).plexCreated = true
    ∧ handleFirstData "S".data ("WRONG".data ++ '\n' :: []) =
        { wroteBack := authFailedMsg, socketEnded := true
          plexCreated := false, plexFirstBytes := [] } :=
  ⟨(c1_auth_decision "S".data "WRONG".data [] (by decide) (by decide)
      (by decide)).1,
   (c1_auth_decision "S".data "WRONG".data [] (by decide) (by decide)
      (by decide)).2 (by decide)⟩

/-- C2: on successful authentication nothing after the newline
terminator is discarded — the leftover suffix of the first chunk
becomes the first bytes handed to the multiplexer, followed by all
bytes received later on the socket, in order. -/
theorem c2_leftover_bytes_preserved (pw rest laterBytes : List Char)
    (hpwNl : '\n' ∉ pw) (hpwTrim : jsTrim pw = pw) :
    (handleFirstData pw (pw ++ '\n' :: rest)).plexCreated = true
    ∧ plexInputBytes (handleFirstData pw (pw ++ '\n' :: rest)) laterBytes =
        rest ++ laterBytes := by
  have hrem :
      handleFirstData pw (pw ++ '\n' :: rest) =
        { wroteBack := [], socketEnded := false, plexCreated := true
          plexFirstBytes := if rest.length > 0 then rest else [] } := by
    unfold handleFirstData
    rw [newlineIdx_line pw rest hpwNl]
    simp [take_length_append, hpwTrim, drop_length_succ_append]
  rw [hrem]
  refine ⟨rfl, ?_⟩
  cases rest with
  | nil => rfl
  | cons a as => simp [plexInputBytes]

/-- C2 witness: secret `"S"`, first chunk `"S\nAB"`, later bytes
`"CD"`: the multiplexer receives `"ABCD"`. -/
theorem c2_leftover_bytes_preserved_witness :
    (handleFirstData "S".data ("S".data ++ '\n' :: "AB".data)).plexCreated = true
    ∧ plexInputBytes (handleFirstData "S".data ("S".data ++ '\n' :: "AB".data))
        "CD".data = "AB".data ++ "CD".data :=
  c2_leftover_bytes_preserved "S".data "AB".data "CD".data (by decide) (by decide)

/-- C3: with the control server unreachable, the client makes exactly
`maxRetries = 5` dial attempts, numbered 1 through 5, with a fixed
10000 ms wait between consecutive attempts (no exponential backoff),
and then exits the process with the nonzero code 1; moreover, in the
general lifecycle relation the only transition into an exited phase is
the give-up transition from a dialing phase with zero remaining
retries, and its exit code is 1. -/
theorem c3_retry_policy :
    clientRunUnreachable =
      [.dialAttempt 1, .waitMs 10000, .dialAttempt 2, .waitMs 10000,
       .dialAttempt 3, .waitMs 10000, .dialAttempt 4, .waitMs 10000,
       .dialAttempt 5, .waitMs 10000, .exitProcess 1]
    ∧ (∀ (s : ClientPhase) (l : ClientLabel) (c : Nat),
        ClientStep s l (.exited c) → s = .dialing 0 ∧ c = 1 ∧ c ≠ 0) := by
  constructor
  · rfl
  · intro s l c h
    cases h
    exact ⟨rfl, rfl, one_ne_zero⟩

/-- C3 witness: the give-up transition itself. -/
theorem c3_retry_policy_witness :
    ClientPhase.dialing 0 = ClientPhase.dialing 0 ∧ 1 = 1 ∧ (1 : Nat) ≠ 0 :=
  c3_retry_policy.2 (.dialing 0) .gaveUp 1 ClientStep.giveUp

/-- C4: the attempt counter is never reset by a successful connection:
the close of an established connection redials with exactly the same
remaining retries, a successful dial consumes one retry, and no
transition of the client lifecycle ever increases the remaining
retries — so a long-lived connection that later drops leaves only the
remaining share of the original budget. -/
theorem c4_counter_never_reset :
    (∀ (r : Nat) (s : ClientPhase),
        ClientStep (.connected r) .connClosed s → s = .dialing r)
    ∧ (∀ (r : Nat) (s : ClientPhase),
        ClientStep (.dialing (r + 1)) .dialOk s → s = .connected r)
    ∧ (∀ (s : ClientPhase) (l : ClientLabel) (t : ClientPhase),
        ClientStep s l t → phaseRetries t ≤ phaseRetries s) := by
  refine ⟨?_, ?_, ?_⟩
  · intro r s h; cases h; rfl
  · intro r s h; cases h; rfl
  · intro s l t h; cases h <;> simp [phaseRetries]

/-- C4 witness: a connection established with 3 retries left that
closes redials with 3 retries left, not with a reset budget. -/
theorem c4_counter_never_reset_witness :
    ClientPhase.dialing 3 = ClientPhase.dialing 3
    ∧ ClientPhase.connected 3 = ClientPhase.connected 3
    ∧ phaseRetries (ClientPhase.dialing 3) ≤ phaseRetries (ClientPhase.connected 3) :=
  ⟨c4_counter_never_reset.1 3 (.dialing 3) (ClientStep.connClosed 3),
   c4_counter_never_reset.2.1 3 (.connected 3) (ClientStep.dialOk 3),
   c4_counter_never_reset.2.2 (.connected 3) .connClosed (.dialing 3)
     (ClientStep.connClosed 3)⟩

/-- Helper for C5: as long as neither the grace timer fires nor a
replacement control connection becomes active, the exposed listener of
a live `setupTunnel` instance keeps accepting connections. -/
theorem tunnelRun_listenerOpen (g : Nat) (evs : List TunnelEvent) :
    ∀ s : TunnelState, s.processAlive = true → s.listenerOpen = true →
      TunnelEvent.graceTimerFires ∉ evs →
      TunnelEvent.replacementActive ∉ evs →
      (tunnelRun g s evs).listenerOpen = true := by
  induction evs with
  | nil => exact fun s _ hopen _ _ => hopen
  | cons e es ih =>
      intro s halive hopen hfire hrepl
      simp only [List.mem_cons, not_or] at hfire hrepl
      have hstep : (tunnelStep g s e).processAlive = true ∧
          (tunnelStep g s e).listenerOpen = true := by
        cases e with
        | controlClose => exact ⟨by simp [tunnelStep, halive],
            by simp [tunnelStep, halive, hopen]⟩
        | replacementActive => exact absurd rfl hrepl.1
        | graceTimerFires => exact absurd rfl hfire.1
      exact ih (tunnelStep g s e) hstep.1 hstep.2 hfire.2 hrepl.2

/-- C5, counterexample: a replacement control connection becomes
active during the grace window, while the old exposed listener still
holds the port.  The replacement runs `setupTunnel` afresh, its bind
of the same exposed port fails with EADDRINUSE, the exposed server has
no error handler, and the unhandled error crashes the process: the
listener stops accepting immediately — before the grace period has
elapsed and without the grace timer ever firing — refuting both that
the listener accepts for at least the grace period and that it is
closed only by the timer firing with no replacement. -/
theorem c5_replacement_crashes_before_grace :
    (tunnelRun 5000 tunnelInit
      [.controlClose, .replacementActive]).listenerOpen = false
    ∧ (tunnelRun 5000 tunnelInit
        [.controlClose, .replacementActive]).processAlive = false
    ∧ (tunnelRun 5000 tunnelInit
        [.controlClose, .replacementActive]).timerArmedMs = none :=
  ⟨rfl, rfl, rfl⟩

/-- C5, amended: when the control connection closes the server arms a
timer of exactly the configured grace duration.  If no replacement
control connection becomes active in the interim, the exposed listener
keeps accepting connections until the timer fires, and when the armed
timer fires it is closed.  If a replacement becomes active while the
listener still holds the exposed port, the replacement's bind fails
with EADDRINUSE and the unhandled error crashes the server process,
taking the listener down before the timer fires. -/
theorem c5_grace_teardown (g : Nat) (s : TunnelState) (evs : List TunnelEvent)
    (halive : s.processAlive = true) (hopen : s.listenerOpen = true)
    (hfire : TunnelEvent.graceTimerFires ∉ evs)
    (hrepl : TunnelEvent.replacementActive ∉ evs) :
    (tunnelStep g s .controlClose).timerArmedMs = some g
    ∧ (tunnelRun g s evs).listenerOpen = true
    ∧ (∀ t : TunnelState, t.processAlive = true → t.timerArmedMs.isSome →
        (tunnelStep g t .graceTimerFires).listenerOpen = false)
    ∧ (∀ t : TunnelState, t.processAlive = true → t.listenerOpen = true →
        (tunnelStep g t .replacementActive).processAlive = false
        ∧ (tunnelStep g t .replacementActive).listenerOpen = false
        ∧ (tunnelStep g t .replacementActive).timerArmedMs = none) := by
  refine ⟨by simp [tunnelStep, halive], ?_, ?_, ?_⟩
  · exact tunnelRun_listenerOpen g evs s halive hopen hfire hrepl
  · intro t halivet harmed
    cases h : t.timerArmedMs with
    | none => rw [h] at harmed; cases harmed
    | some d => simp [tunnelStep, halivet, h]
  · intro t halivet hopent
    refine ⟨?_, ?_, ?_⟩ <;> simp [tunnelStep, halivet, hopent]

/-- C5 witness: grace 5000 ms from a fresh `setupTunnel` instance;
after the control close (timer armed, no replacement yet) the listener
still accepts. -/
theorem c5_grace_teardown_witness :
    (tunnelStep 5000 tunnelInit .controlClose).timerArmedMs = some 5000
    ∧ (tunnelRun 5000 tunnelInit [.controlClose]).listenerOpen = true
    ∧ (∀ t : TunnelState, t.processAlive = true → t.timerArmedMs.isSome →
        (tunnelStep 5000 t .graceTimerFires).listenerOpen = false)
    ∧ (∀ t : TunnelState, t.processAlive = true → t.listenerOpen = true →
        (tunnelStep 5000 t .replacementActive).processAlive = false
        ∧ (tunnelStep 5000 t .replacementActive).listenerOpen = false
        ∧ (tunnelStep 5000 t .replacementActive).timerArmedMs = none) :=
  c5_grace_teardown 5000 tunnelInit [.controlClose] rfl rfl (by decide) (by decide)

/-- C6: a local-target connection failure on one logical stream is
isolated: the handler leaves the control connection exactly as it was,
leaves every bridge with a different stream id untouched, and ends the
tunnel stream of the affected bridge only. -/
theorem c6_local_failure_isolated (st : ClientTunnelState) (i : Nat) :
    (onLocalSocketError st i).controlOpen = st.controlOpen
    ∧ (∀ b ∈ st.bridges, b.id ≠ i → b ∈ (onLocalSocketError st i).bridges)
    ∧ (∀ b ∈ st.bridges, b.id = i →
        { b with streamOpen := false } ∈ (onLocalSocketError st i).bridges) := by
  refine ⟨rfl, ?_, ?_⟩
  · intro b hb hne
    have : b = (fun b : LogicalBridge =>
        if b.id = i then { b with streamOpen := false } else b) b := by
      simp [hne]
    rw [this]
    exact List.mem_map_of_mem _ hb
  · intro b hb heq
    have : { b with streamOpen := false } = (fun b : LogicalBridge =>
        if b.id = i then { b with streamOpen := false } else b) b := by
      simp [heq]
    rw [this]
    exact List.mem_map_of_mem _ hb

/-- C6 witness: two open bridges with stream ids 1 and 2 and an open
control connection; a local failure on stream 2 leaves the control
connection open and bridge 1 untouched, and ends only stream 2. -/
theorem c6_local_failure_isolated_witness :
    (onLocalSocketError ⟨true, [⟨1, true, true⟩, ⟨2, true, true⟩]⟩ 2).controlOpen
      = true
    ∧ (⟨1, true, true⟩ : LogicalBridge) ∈
        (onLocalSocketError ⟨true, [⟨1, true, true⟩, ⟨2, true, true⟩]⟩ 2).bridges
    ∧ (⟨2, false, true⟩ : LogicalBridge) ∈
        (onLocalSocketError ⟨true, [⟨1, true, true⟩, ⟨2, true, true⟩]⟩ 2).bridges :=
  ⟨(c6_local_failure_isolated ⟨true, [⟨1, true, true⟩, ⟨2, true, true⟩]⟩ 2).1,
   (c6_local_failure_isolated ⟨true, [⟨1, true, true⟩, ⟨2, true, true⟩]⟩ 2).2.1
     ⟨1, true, true⟩ (by decide) (by decide),
   (c6_local_failure_isolated ⟨true, [⟨1, true, true⟩, ⟨2, true, true⟩]⟩ 2).2.2
     ⟨2, true, true⟩ (by decide) rfl⟩

/-- C8: after any number `n` of control connections have become active,
the server has created one fresh exposed listener per connection, each
bound to the configured exposed port: the listener list is exactly one
record per connection index, every owner index occurs exactly once, and
no listener is shared between two connections. -/
theorem c8_one_listener_per_conn (p n : Nat) :
    (runActivations p n).listeners =
      (List.range n).map (fun i => { ownerConn := i, port := p })
    ∧ (∀ i < n,
        ((runActivations p n).listeners.map ListenerRec.ownerConn).count i = 1)
    ∧ ((runActivations p n).listeners.map ListenerRec.ownerConn).Nodup
    ∧ (∀ l ∈ (runActivations p n).listeners, l.port = p) := by
  have hmap : (runActivations p n).listeners.map ListenerRec.ownerConn
      = List.range n := by
    rw [runActivations_listeners, List.map_map]
    have hcomp : (ListenerRec.ownerConn ∘ fun i =>
        ({ ownerConn := i, port := p } : ListenerRec)) = id := rfl
    rw [hcomp, List.map_id]
  refine ⟨runActivations_listeners p n, ?_, ?_, ?_⟩
  · intro i hi
    rw [hmap]
    exact List.count_eq_one_of_mem (List.nodup_range n) (List.mem_range.mpr hi)
  · rw [hmap]; exact List.nodup_range n
  · intro l hl
    rw [runActivations_listeners] at hl
    obtain ⟨i, _, rfl⟩ := List.mem_map.mp hl
    rfl

/-- C8 witness: three activations with exposed port 9. -/
theorem c8_one_listener_per_conn_witness :
    (runActivations 9 3).listeners =
      (List.range 3).map (fun i => { ownerConn := i, port := 9 })
    ∧ ((runActivations 9 3).listeners.map ListenerRec.ownerConn).count 1 = 1 :=
  ⟨(c8_one_listener_per_conn 9 3).1,
   (c8_one_listener_per_conn 9 3).2.1 1 (by decide)⟩

/-- C9: an empty-string password normalises to null (JS falsiness), so
the server skips the auth phase and builds the multiplexer immediately
for every connection, and the client sends no auth line at all. -/
theorem c9_empty_password_means_no_password :
    normalizePassword (some "".data) = none
    ∧ serverConnBehavior (some "".data) = .immediatePlex
    ∧ clientAuthWrite (some "".data) = [] := by
  refine ⟨rfl, rfl, rfl⟩

/-- C10: the server decides authentication solely from the first data
event: a first chunk with no newline is immediately answered with
`"Authentication failed\n"` and the socket is ended, no multiplexer is
constructed, and the chunks received afterwards are never examined —
the outcome is identical whatever they are. -/
theorem c10_first_chunk_only (pw c : List Char)
    (rest rest₂ : List (List Char)) (hnl : '\n' ∉ c) :
    serverAuthOutcome pw (c :: rest) = serverAuthOutcome pw (c :: rest₂)
    ∧ serverAuthOutcome pw (c :: rest) =
        some { wroteBack := authFailedMsg, socketEnded := true
               plexCreated := false, plexFirstBytes := [] } := by
  constructor
  · rfl
  · show some (handleFirstData pw c) = _
    unfold handleFirstData
    rw [(newlineIdx_eq_none_iff c).mpr hnl]

/-- C10 witness: secret `"S"`; the client sends the correct secret but
the newline only arrives in the second chunk — it is rejected, and the
outcome is the same whether or not the second chunk ever arrives. -/
theorem c10_first_chunk_only_witness :
    serverAuthOutcome "S".data ("S".data :: ["\n".data]) =
      serverAuthOutcome "S".data ("S".data :: [])
    ∧ serverAuthOutcome "S".data ("S".data :: ["\n".data]) =
        some { wroteBack := authFailedMsg, socketEnded := true
               plexCreated := false, plexFirstBytes := [] } :=
  c10_first_chunk_only "S".data "S".data ["\n".data] [] (by decide)

end Blackhole
